import Mathlib

/-! Shallow embedding of the camera-acquisition worker of
`src/app/models/camera_model.py` (classes `CameraThread` and `CameraModel`),
together with proofs of the specification claims about it.

The embedding renders the worker's control flow as pure Lean functions over
an explicit environment (an oracle describing what the OpenCV backend does on
each attempt and on each frame read).  Emitted Qt signals, `time.sleep` calls,
condition-variable waits and `cap.release()` calls are recorded as events in a
trace, so that claims about "exactly one error event", "progress reset",
"one release per open" etc. become statements about the trace.

Abstractions (documented where used):
* wall-clock durations appear only as the recorded sleep/wait amounts;
* negotiated width/height/fps text inside two status messages is dropped
  (the claims never mention it);
* the oracle decides, per connect attempt, which of the four source-level
  outcomes happens: the backend reports not-opened, the connect-timeout timer
  fires before open completes, the first frame read fails, or everything
  succeeds.
-/

/-- Trace events: the five Qt signals of `CameraThread` / `CameraModel`
(`status_message`, `progress_updated`, `connected`, `error`, `frame_ready`),
plus bookkeeping events for `cap.release()`, `time.sleep`,
`QWaitCondition.wait`, `QWaitCondition.wakeAll`, and thread
construction/start in `CameraModel.start_camera`. -/
inductive Ev where
  | status (msg : String)
  | progress (value : Nat)
  | connected (ok : Bool)
  | error (msg : String)
  | frame
  | release
  | sleepMs (ms : Nat)
  | condWaitMs (ms : Nat)
  | wakeAll
  | threadCreate (sid : Nat)
  | threadStart (sid : Nat)
  deriving DecidableEq, Repr

/-- Number of occurrences of the event `e` in a trace. -/
def countEv (e : Ev) (evs : List Ev) : Nat :=
  (evs.filter (fun x => decide (x = e))).length

/-- Recognise `error` events irrespective of their message. -/
def isErrorEv : Ev → Bool
  | .error _ => true
  | _ => false

/-- Number of `error` events in a trace. -/
def errorCount (evs : List Ev) : Nat := (evs.filter isErrorEv).length

/-- Recognise `release` events. -/
def isReleaseEv : Ev → Bool
  | .release => true
  | _ => false

/-- Recognise `threadCreate` bookkeeping events. -/
def isThreadCreate : Ev → Bool
  | .threadCreate _ => true
  | _ => false

/-- Recognise `threadStart` bookkeeping events. -/
def isThreadStart : Ev → Bool
  | .threadStart _ => true
  | _ => false

/-- The values of the `progress_updated` events of a trace, in order. -/
def progressValues (evs : List Ev) : List Nat :=
  evs.filterMap fun e =>
    match e with
    | .progress v => some v
    | _ => none

/-! Status and error message texts (from `camera_model.py`) -/

def initializingMsg (cid : Nat) : String :=
  "Initializing camera " ++ toString cid ++ "..."

def preparingMsg (cid : Nat) : String :=
  "Preparing to connect to camera " ++ toString cid ++ "..."

def openingMsg (cid : Nat) : String :=
  "Opening camera " ++ toString cid ++ "..."

def configuringMsg (cid : Nat) : String :=
  "Configuring camera " ++ toString cid ++ "..."

def firstFrameMsg : String := "Getting first frame..."

/-- Source text is "Camera ready: WxH @ Ffps"; the negotiated numbers
are abstracted away since no claim mentions them. -/
def cameraReadyMsg : String := "Camera ready"

def retryingMsg (rc maxR : Nat) : String :=
  "Camera error, retrying (" ++ toString rc ++ "/" ++ toString maxR ++ ")..."

/-- Per-attempt error text: "Camera error: " followed by the text of the
`IOError("Camera initialization timed out")` raised in `run`. -/
def initFailedMsg : String := "Camera error: Camera initialization timed out"

def exhaustedMsg (maxR : Nat) : String :=
  "Failed to initialize camera after " ++ toString maxR ++ " attempts"

def frameFailMsg : String := "Failed to capture frame after multiple attempts"

def persistentMsg (m : String) : String := "Persistent capture error: " ++ m

def cameraDisconnectedMsg : String := "Camera disconnected"

def noCameraMsg : String := "No camera available"

def connectingMsg (cid : Nat) : String :=
  "Connecting to camera " ++ toString cid ++ "..."

/-! Constants of `CameraThread` -/

/-- Constant `CONNECT_TIMEOUT = 10.0` seconds. -/
def CONNECT_TIMEOUT : ℚ := 10

/-- Constant `FRAME_TIMEOUT = 2.0` seconds. -/
def FRAME_TIMEOUT : ℚ := 2

/-- Constant `MAX_FRAME_RETRIES = 3`. -/
def MAX_FRAME_RETRIES : Nat := 3

/-- Stage-weight dictionary `self.init_stages` of `CameraThread.__init__`. -/
structure InitStages where
  prepare : Nat
  openStage : Nat
  configure : Nat
  firstFrame : Nat
  deriving DecidableEq, Repr

/-- Default stage weights: prepare 10, open 30, configure 20, first_frame 40. -/
def initStages : InitStages := ⟨10, 30, 20, 40⟩

/-! One connect attempt: `CameraThread._initialize_camera` -/

/-- Outcome of one connect attempt, decided by the backend oracle:
* `openFail` — `cv2.VideoCapture` returns a handle with `isOpened()` false;
* `connectTimeout` — the `CONNECT_TIMEOUT` timer fires before open completes
  (`_connection_timeout` sets `force_stop`), and the late handle is not opened;
* `firstFrameFail` — open and configure succeed but the first `cap.read()`
  returns `ret = False` (the `IOError` is caught inside
  `_initialize_camera`, which returns `False`);
* `ok` — the whole sequence succeeds. -/
inductive InitOutcome where
  | openFail
  | connectTimeout
  | firstFrameFail
  | ok
  deriving DecidableEq, Repr

def InitOutcome.succeeds : InitOutcome → Bool
  | .ok => true
  | _ => false

def InitOutcome.timesOut : InitOutcome → Bool
  | .connectTimeout => true
  | _ => false

/-- The trace of one `_initialize_camera` call: progress 0 and the prepare
stage, then the open stage; on `openFail` / `connectTimeout` the function
returns `False` right after the open check; on `firstFrameFail` it gets as
far as the first-frame stage before the read fails; on `ok` it runs to
`progress(100)` and the ready status. -/
def initCameraEvents (cid : Nat) (st : InitStages) (o : InitOutcome) : List Ev :=
  let pre : List Ev :=
    [Ev.progress 0, Ev.status (preparingMsg cid),
     Ev.progress st.prepare, Ev.status (openingMsg cid)]
  match o with
  | .openFail => pre
  | .connectTimeout => pre
  | .firstFrameFail =>
      pre ++
      [Ev.progress (st.prepare + st.openStage),
       Ev.status (configuringMsg cid),
       Ev.progress (st.prepare + st.openStage + st.configure),
       Ev.status firstFrameMsg]
  | .ok =>
      pre ++
      [Ev.progress (st.prepare + st.openStage),
       Ev.status (configuringMsg cid),
       Ev.progress (st.prepare + st.openStage + st.configure),
       Ev.status firstFrameMsg,
       Ev.progress 100,
       Ev.status cameraReadyMsg]

/-- Result of `_initialize_camera`: its trace, its boolean return value, and
whether `_connection_timeout` fired (setting `self.force_stop`). -/
structure InitResult where
  events : List Ev
  success : Bool
  timedOut : Bool
  deriving Repr

def initCamera (cid : Nat) (st : InitStages) (o : InitOutcome) : InitResult :=
  { events := initCameraEvents cid st o
    success := o.succeeds
    timedOut := o.timesOut }

/-! The streaming loop: `CameraThread._run_capture_loop` -/

/-- What happens on one iteration of the capture loop, decided by the oracle:
* `disconnected` — `self.cap` is gone or not opened (loop start check);
* `noFrame` — `cap.read()` returns `ret = False` without raising;
* `exc m` — the read/convert raises an exception with text `m`;
* `okFrame elapsed` — the read succeeds, taking `elapsed` seconds. -/
inductive ReadStep where
  | disconnected
  | noFrame
  | exc (m : String)
  | okFrame (elapsed : ℚ)
  deriving DecidableEq

/-- How `_run_capture_loop` ended. `stopped` models the while condition
turning false because `stop()` set `running = False` / `force_stop = True`
(in the embedding: the oracle's step list was exhausted); the three break
cases leave `running` true so that `run` falls into its outer retry logic. -/
inductive LoopExit where
  | stopped
  | disconnectedBreak
  | frameRetryBreak
  | persistentBreak
  deriving DecidableEq, Repr

/-- Remaining interval `max(0, frame_interval - elapsed)` with
`frame_interval = 1.0 / fps`. -/
def frameSleepTime (fps : Nat) (elapsed : ℚ) : ℚ :=
  max 0 (1 / (fps : ℚ) - elapsed)

/-- Lines 368–375: after emitting a frame, when `fps < 30`, wait the
remaining part of the frame interval on the condition variable
(`self.condition.wait(self.mutex, int(sleep_time * 1000))`) — recorded as a
`condWaitMs` event, distinct from the plain `sleepMs` used elsewhere. -/
def fpsThrottle (fps : Nat) (elapsed : ℚ) : List Ev :=
  if fps < 30 then
    if 0 < frameSleepTime fps elapsed then
      [Ev.condWaitMs ((frameSleepTime fps elapsed) * 1000).floor.toNat]
    else []
  else []

/-- Model of `_run_capture_loop`, with the per-frame timeout timer elided (its
`_frame_timeout` soft-reopen path is not exercised by any claim).
State arguments mirror `frame_retry_count` and `error_count`. -/
def captureLoop (fps : Nat) : List ReadStep → Nat → Nat → List Ev × LoopExit
  | [], _, _ => ([], .stopped)
  | .disconnected :: _, _, _ =>
      ([Ev.error cameraDisconnectedMsg], .disconnectedBreak)
  | .noFrame :: rest, frameRetry, errCount =>
      let fr := frameRetry + 1
      let ec := errCount + 1
      if MAX_FRAME_RETRIES ≤ fr then
        ([Ev.error frameFailMsg], .frameRetryBreak)
      else
        let r := captureLoop fps rest fr ec
        (Ev.sleepMs 100 :: r.1, r.2)
  | .exc m :: rest, frameRetry, errCount =>
      let ec := errCount + 1
      if 5 < ec then
        ([Ev.error (persistentMsg m)], .persistentBreak)
      else
        let r := captureLoop fps rest frameRetry ec
        (Ev.sleepMs 100 :: r.1, r.2)
  | .okFrame elapsed :: rest, _, _ =>
      let r := captureLoop fps rest 0 0
      (Ev.frame :: (fpsThrottle fps elapsed ++ r.1), r.2)

/-! The worker thread main loop: `CameraThread.run` -/

/-- Configuration fields of `CameraThread.__init__` used by `run`
(`camera_id`, `max_retries = 2`, `retry_delay = 1`, `fps = 30`,
`init_stages`). -/
structure RunConfig where
  cameraId : Nat
  maxRetries : Nat
  retryDelay : Nat
  fps : Nat
  stages : InitStages
  deriving Repr

/-- The backend oracle for a whole `run`: the outcome of the `k`-th connect
attempt, and the read steps the capture loop sees if attempt `k` succeeds. -/
structure RunEnv where
  attemptOutcome : Nat → InitOutcome
  streamSteps : Nat → List ReadStep

/-- Result of `run`: the emitted trace, how many connect attempts
(`_initialize_camera` calls) were performed, the final `retry_count`, and the
final `force_stop` flag. -/
structure RunResult where
  events : List Ev
  attempts : Nat
  retryCount : Nat
  forceStop : Bool
  deriving Repr

/-- Lines 152–159 of `run`: after the while loop, if
`retry_count >= max_retries`, emit `connected(False)` and the terminal
"Failed to initialize camera after N attempts" error. -/
def finishRun (cfg : RunConfig) (evs : List Ev) (attempts rc : Nat)
    (fs : Bool) : RunResult :=
  if cfg.maxRetries ≤ rc then
    { events := evs ++ [Ev.connected false, Ev.error (exhaustedMsg cfg.maxRetries)]
      attempts := attempts, retryCount := rc, forceStop := fs }
  else
    { events := evs, attempts := attempts, retryCount := rc, forceStop := fs }

/-- The body of `run`'s `while self.retry_count < self.max_retries and not
self.force_stop` loop.  `fuel` is the number of loop iterations still allowed
by the retry budget, maintained as `fuel + rc = max_retries` (each iteration
either breaks or increments `retry_count`), `k` counts performed attempts,
and `acc` accumulates the trace.  Every iteration ends with exactly one
`release` event: the `finally: self._release_camera()` (the handle returned
by `cv2.VideoCapture` is non-null on every path through an attempt). -/
def runLoop (cfg : RunConfig) (env : RunEnv) :
    Nat → Nat → Nat → List Ev → RunResult
  | 0, rc, k, acc => finishRun cfg acc k rc false
  | fuel + 1, rc, k, acc =>
    let o := env.attemptOutcome k
    let ini := initCamera cfg.cameraId cfg.stages o
    let base := acc ++ Ev.status (initializingMsg cfg.cameraId) :: ini.events
    if ini.success then
      -- camera initialized: running = True, connected(True), capture loop
      let lr := captureLoop cfg.fps (env.streamSteps k) 0 0
      let base2 := base ++ Ev.connected true :: lr.1
      if lr.2 = LoopExit.stopped then
        -- `if self.force_stop: break`, then `finally` release
        finishRun cfg (base2 ++ [Ev.release]) (k + 1) rc true
      else if rc + 1 < cfg.maxRetries then
        -- `if self.running: retry_count += 1`, retry announcement, sleep,
        -- `continue` (running the `finally` release first)
        runLoop cfg env fuel (rc + 1) (k + 1)
          (base2 ++ [Ev.status (retryingMsg (rc + 1) cfg.maxRetries),
                     Ev.progress 0, Ev.sleepMs (cfg.retryDelay * 1000),
                     Ev.release])
      else
        -- budget exhausted: `break`, `finally` release, then post-loop
        finishRun cfg (base2 ++ [Ev.release]) (k + 1) (rc + 1) false
    else
      -- `raise IOError("Camera initialization timed out")`, caught by the
      -- `except` branch: retry_count += 1
      if rc + 1 < cfg.maxRetries ∧ ini.timedOut = false then
        runLoop cfg env fuel (rc + 1) (k + 1)
          (base ++ [Ev.status (retryingMsg (rc + 1) cfg.maxRetries),
                    Ev.progress 0, Ev.sleepMs (cfg.retryDelay * 1000),
                    Ev.release])
      else
        -- `self.error.emit(error_msg); break`, `finally` release, post-loop
        finishRun cfg (base ++ [Ev.error initFailedMsg, Ev.release])
          (k + 1) (rc + 1) ini.timedOut

/-- Model of `CameraThread.run`: `retry_count = 0`, then the retry loop with budget
`max_retries`, then the post-loop terminal check. -/
def runFn (cfg : RunConfig) (env : RunEnv) : RunResult :=
  runLoop cfg env cfg.maxRetries 0 0 []

/-! `CameraThread` object state, `_release_camera`, `stop` -/

/-- The fields of a `CameraThread` instance relevant to stop/start semantics.
`sid` is a bookkeeping identity for the thread object (Python object
identity), `alive` models `QThread.isRunning()`, `cap` the capture handle. -/
structure ThreadState where
  sid : Nat
  cameraId : Nat
  fps : Nat
  running : Bool
  forceStop : Bool
  alive : Bool
  cap : Option Nat
  deriving DecidableEq, Repr

/-- Constructor `CameraThread.__init__`: `running = False`, `force_stop = False`,
`cap = None`; the thread is not started yet. -/
def newThread (sid cameraId fps : Nat) : ThreadState :=
  { sid := sid, cameraId := cameraId, fps := fps
    running := false, forceStop := false, alive := false, cap := none }

/-- Helper `CameraThread._release_camera`: `if self.cap: self.cap.release();
self.cap = None` — releasing an already-null handle does nothing. -/
def releaseCamera (t : ThreadState) : ThreadState × List Ev :=
  match t.cap with
  | some _ => ({ t with cap := none }, [Ev.release])
  | none => (t, [])

/-- Model of `CameraThread.stop`: clear `running`, set `force_stop`, wake the wait
condition, join (or terminate) the thread, then `_release_camera`. -/
def stopThread (t : ThreadState) : ThreadState × List Ev :=
  let t1 : ThreadState := { t with running := false, forceStop := true, alive := false }
  let r := releaseCamera t1
  (r.1, Ev.wakeAll :: r.2)

/-- Semantics of `QWaitCondition.wait(mutex, timeoutMs)`: the wait ends at
the earlier of the timeout and a `wakeAll` issued `wake` ms into the wait
(`none` when nobody wakes it). -/
def waitMs (timeoutMs : Nat) (wake : Option Nat) : Nat :=
  match wake with
  | some w => min w timeoutMs
  | none => timeoutMs

/-! `CameraModel`: start/stop and camera detection -/

/-- The fields of a `CameraModel` instance used by `start_camera` /
`stop_camera`.  `nextSessionId` is the bookkeeping counter handing out fresh
thread identities. -/
structure ModelState where
  cameraThread : Option ThreadState
  currentCameraId : Option Nat
  currentResolution : Nat × Nat
  currentFps : Nat
  nextSessionId : Nat
  deriving DecidableEq, Repr

/-- Model of `CameraModel.stop_camera`: only acts when a thread exists and
`isRunning()`; then status, `thread.stop()`, drop the thread, status,
`camera_connected(False)`. -/
def stopCamera (m : ModelState) : ModelState × List Ev :=
  match m.cameraThread with
  | some t =>
      if t.alive then
        let r := stopThread t
        ({ m with cameraThread := none },
         Ev.status "Disconnecting from camera..." :: r.2 ++
           [Ev.status "Camera disconnected", Ev.connected false])
      else (m, [])
  | none => (m, [])

/-- Result of `CameraModel.start_camera`: new model state, emitted trace,
boolean return value. -/
structure StartResult where
  state : ModelState
  events : List Ev
  ok : Bool
  deriving Repr

/-- Model of `CameraModel.start_camera` (backend hint elided — no claim mentions it):
first `stop_camera()`, then resolve arguments against the current settings;
a `None` camera id emits only `camera_error("No camera available")` and
returns `False`; otherwise status + progress(0), construct a fresh
`CameraThread`, start it, update current settings, return `True`. -/
def startCamera (m : ModelState) (cameraId : Option Nat)
    (resolution : Option (Nat × Nat)) (fps : Option Nat) : StartResult :=
  let s := stopCamera m
  let m1 := s.1
  let cid := match cameraId with
    | some c => some c
    | none => m1.currentCameraId
  let res := match resolution with
    | some r => r
    | none => m1.currentResolution
  let f := match fps with
    | some f0 => f0
    | none => m1.currentFps
  match cid with
  | none => { state := m1, events := s.2 ++ [Ev.error noCameraMsg], ok := false }
  | some c =>
      let t : ThreadState := { newThread m1.nextSessionId c f with alive := true }
      { state :=
          { m1 with
            cameraThread := some t
            nextSessionId := m1.nextSessionId + 1
            currentCameraId := some c
            currentResolution := res
            currentFps := f }
        events := s.2 ++
          [Ev.status (connectingMsg c), Ev.progress 0,
           Ev.threadCreate m1.nextSessionId, Ev.threadStart m1.nextSessionId]
        ok := true }

/-! Camera detection (`CameraModel._fast_detect_cameras`,
`_detect_cameras` and the platform helpers) -/

/-- Possible results of `platform.system().lower()` distinguished by the code. -/
inductive OsKind where
  | windows
  | linux
  | darwin
  | otherOs
  deriving DecidableEq, Repr

/-- Record `CameraInfo` (virtual-camera flag elided: always default `False`). -/
structure CameraInfo where
  id : Nat
  name : String
  apiName : String
  deriving DecidableEq, Repr

/-- Backend oracle for detection: which indices open under which backend,
and which `/dev/video*` device numbers exist on Linux. -/
structure CaptureOracle where
  osKind : OsKind
  opens : Nat → Bool
  dshowOpens : Nat → Bool
  msmfOpens : Nat → Bool
  v4lOpens : Nat → Bool
  videoDevices : List Nat

/-- Lines 490–492 of `_fast_detect_cameras`: "Ensure at least camera 0 is in
the list" — when nothing was found, the result is just the fallback entry. -/
def fallbackIfEmpty (l : List CameraInfo) : List CameraInfo :=
  if l.isEmpty then [⟨0, "Default Camera", "Fallback"⟩] else l

/-- Model of `_fast_detect_cameras`: probe indices 0 and 1 with the platform backend;
if nothing opened, the result is the `CameraInfo(0, "Default Camera",
"Fallback")` entry.  (The per-camera resolution suffix of the name is
abstracted away.) -/
def fastDetectCameras (o : CaptureOracle) : List CameraInfo :=
  let backendOpens : Nat → Bool :=
    match o.osKind with
    | .windows => o.dshowOpens
    | .linux => o.v4lOpens
    | _ => o.opens
  let cameras := (List.range 2).filterMap fun i =>
    if backendOpens i then
      some ⟨i, "Camera " ++ toString i, "Auto-detected"⟩
    else none
  fallbackIfEmpty cameras

/-- Model of `_detect_cameras_windows`: DirectShow indices 0–9, else Media
Foundation indices 0–9. -/
def detectCamerasWindows (o : CaptureOracle) : List CameraInfo :=
  let dshow := (List.range 10).filterMap fun i =>
    if o.dshowOpens i then
      some ⟨i, "Camera " ++ toString i, "DirectShow"⟩
    else none
  if dshow.isEmpty then
    (List.range 10).filterMap fun i =>
      if o.msmfOpens i then
        some ⟨i, "Camera " ++ toString i, "Media Foundation"⟩
      else none
  else dshow

/-- Model of `_detect_cameras_linux`: probe every `/dev/video*` device with V4L2. -/
def detectCamerasLinux (o : CaptureOracle) : List CameraInfo :=
  o.videoDevices.filterMap fun d =>
    if o.v4lOpens d then
      some ⟨d, "V4L2 Camera " ++ toString d, "V4L2"⟩
    else none

/-- Model of `_detect_cameras_macos`: probe indices 0–9 with the default backend. -/
def detectCamerasMacos (o : CaptureOracle) : List CameraInfo :=
  (List.range 10).filterMap fun i =>
    if o.opens i then
      some ⟨i, "Camera " ++ toString i, "AVFoundation"⟩
    else none

/-- Model of `_detect_cameras_generic`: probe indices 0–9 with the default backend. -/
def detectCamerasGeneric (o : CaptureOracle) : List CameraInfo :=
  (List.range 10).filterMap fun i =>
    if o.opens i then
      some ⟨i, "Camera " ++ toString i, "Unknown"⟩
    else none

/-- Lines 517–520 of `_detect_cameras`: "Always ensure camera ID 0 is
available as fallback". -/
def ensureCameraZero (l : List CameraInfo) : List CameraInfo :=
  if l.any (fun c => c.id == 0) then l
  else l ++ [⟨0, "Default Camera", "Fallback"⟩]

/-- Model of `_detect_cameras`: platform-specific detection, generic fallback when it
found nothing, then always ensure an entry with id 0 is present. -/
def detectCameras (o : CaptureOracle) : List CameraInfo :=
  let cams :=
    match o.osKind with
    | .windows => detectCamerasWindows o
    | .linux => detectCamerasLinux o
    | .darwin => detectCamerasMacos o
    | .otherOs => []
  let cams2 := if cams.isEmpty then detectCamerasGeneric o else cams
  ensureCameraZero cams2

/-- Model of `_refresh_available_cameras`: fast or full scan populates
`self.available_cameras`, which `get_available_cameras` returns. -/
def refreshAvailableCameras (o : CaptureOracle) (useFastScan : Bool) :
    List CameraInfo :=
  if useFastScan then fastDetectCameras o else detectCameras o

/-! Helper lemmas -/

lemma countEv_nil (e : Ev) : countEv e [] = 0 := rfl

lemma countEv_cons (e x : Ev) (l : List Ev) :
    countEv e (x :: l) = (if x = e then 1 else 0) + countEv e l := by
  by_cases h : x = e <;> simp [countEv, h, Nat.add_comm]

lemma countEv_append (e : Ev) (l₁ l₂ : List Ev) :
    countEv e (l₁ ++ l₂) = countEv e l₁ + countEv e l₂ := by
  simp [countEv, List.filter_append]

lemma errorCount_nil : errorCount [] = 0 := rfl

lemma errorCount_cons (x : Ev) (l : List Ev) :
    errorCount (x :: l) = (if isErrorEv x then 1 else 0) + errorCount l := by
  by_cases h : isErrorEv x <;> simp [errorCount, h, Nat.add_comm]

lemma errorCount_append (l₁ l₂ : List Ev) :
    errorCount (l₁ ++ l₂) = errorCount l₁ + errorCount l₂ := by
  simp [errorCount, List.filter_append]

/-- The retry announcement text can never coincide with the per-attempt
"Initializing camera 0..." text (their lengths differ for every pair of
counters). -/
lemma retryingMsg_ne_initializingMsg (a b : Nat) :
    retryingMsg a b ≠ initializingMsg 0 := by
  intro h
  have h2 := congrArg String.length h
  rw [show (initializingMsg 0).length = 24 from rfl] at h2
  simp only [retryingMsg, String.length_append] at h2
  rw [show ("Camera error, retrying (" : String).length = 24 from rfl,
      show ("/" : String).length = 1 from rfl,
      show (")..." : String).length = 4 from rfl] at h2
  omega

/-- Event counts of the trace of one failing connect attempt
(`openFail` or `firstFrameFail`), with camera id 0 and the default stage
weights: no "Initializing" status (that one is emitted by `run`, not by
`_initialize_camera`), exactly one progress reset, no `connected`, no
`error`, no `release`. -/
lemma counts_initEvents_fail (o : InitOutcome)
    (ho : o = .openFail ∨ o = .firstFrameFail) :
    countEv (Ev.status (initializingMsg 0)) (initCameraEvents 0 initStages o) = 0 ∧
    countEv (Ev.progress 0) (initCameraEvents 0 initStages o) = 1 ∧
    countEv (Ev.connected false) (initCameraEvents 0 initStages o) = 0 ∧
    countEv (Ev.connected true) (initCameraEvents 0 initStages o) = 0 ∧
    errorCount (initCameraEvents 0 initStages o) = 0 ∧
    countEv Ev.release (initCameraEvents 0 initStages o) = 0 := by
  rcases ho with h | h <;> subst h <;>
    exact ⟨by decide, by decide, by decide, by decide, by decide, by decide⟩

/-- The fast-scan fallback step never yields an empty list. -/
lemma fallbackIfEmpty_ne_nil (l : List CameraInfo) : fallbackIfEmpty l ≠ [] := by
  unfold fallbackIfEmpty
  split
  · simp
  · next h => simpa [List.isEmpty_iff] using h

/-- Membership/nonemptiness of the "ensure camera 0" fallback step. -/
lemma ensureCameraZero_mem_zero (l : List CameraInfo) :
    ∃ c, c ∈ ensureCameraZero l ∧ c.id = 0 := by
  unfold ensureCameraZero
  by_cases h : l.any (fun c => c.id == 0)
  · rw [if_pos h]
    obtain ⟨c, hc, h0⟩ := List.any_eq_true.mp h
    exact ⟨c, hc, by simpa using h0⟩
  · rw [if_neg h]
    exact ⟨⟨0, "Default Camera", "Fallback"⟩, by simp, rfl⟩

/-! Claim theorems -/

/-- C3: `stop()` is idempotent.  After one `stop` the capture handle is
`None`; a second `stop` on the already-stopped worker performs no further
release (releasing a null handle is a no-op), emits no `error` event (neither
call does), leaves the state unchanged, and the handle stays `None`. -/
theorem stop_is_idempotent (t : ThreadState) :
    (stopThread t).1.cap = none ∧
    (stopThread (stopThread t).1).1.cap = none ∧
    ((stopThread (stopThread t).1).2.filter isReleaseEv) = [] ∧
    ((stopThread t).2.filter isErrorEv) = [] ∧
    ((stopThread (stopThread t).1).2.filter isErrorEv) = [] ∧
    (stopThread (stopThread t).1).1 = (stopThread t).1 ∧
    releaseCamera (stopThread t).1 = ((stopThread t).1, []) := by
  cases h : t.cap <;>
    simp [stopThread, releaseCamera, h, isReleaseEv, isErrorEv]

/-- C5: progress is the running sum of the fixed stage weights
prepare=10, open=30, configure=20, first-frame=40.  Within one successful
connect attempt the emitted values are `[0, 10, 40, 60, 100]` (the final
`progress_updated.emit(100)` literal coincides with the total weight sum);
the sequence is non-decreasing, made of integers ≤ 100, and ends at 100.
For every attempt outcome the first emitted progress value is 0, which is
the reset at the start of each (re)try inside `_initialize_camera`. -/
theorem progress_is_staged_weight_sum (o : InitOutcome) :
    progressValues (initCameraEvents 0 initStages .ok)
      = [0, initStages.prepare, initStages.prepare + initStages.openStage,
         initStages.prepare + initStages.openStage + initStages.configure,
         100] ∧
    initStages.prepare + initStages.openStage + initStages.configure +
      initStages.firstFrame = 100 ∧
    initStages = ⟨10, 30, 20, 40⟩ ∧
    List.Chain' (fun a b => a ≤ b)
      (progressValues (initCameraEvents 0 initStages .ok)) ∧
    (progressValues (initCameraEvents 0 initStages .ok)).getLast? = some 100 ∧
    ((progressValues (initCameraEvents 0 initStages .ok)).all
      (fun v => decide (v ≤ 100))) = true ∧
    (progressValues (initCameraEvents 0 initStages o)).head? = some 0 := by
  refine ⟨by decide, by decide, by decide, ?_, by decide, by decide, ?_⟩
  · show List.Chain' (fun a b => a ≤ b) [0, 10, 40, 60, 100]
    simp [List.chain'_cons]
  · cases o <;> rfl

/-- C9: camera detection never returns an empty list: the fast scan appends
the "Default Camera" (id 0) fallback when nothing opened, the full scan
always ensures an id-0 entry, and hence `get_available_cameras` is non-empty
after any refresh, on every platform and for every backend behaviour. -/
theorem detection_never_empty (o : CaptureOracle) (useFastScan : Bool) :
    fastDetectCameras o ≠ [] ∧
    detectCameras o ≠ [] ∧
    (∃ c, c ∈ detectCameras o ∧ c.id = 0) ∧
    refreshAvailableCameras o useFastScan ≠ [] := by
  have hfast : fastDetectCameras o ≠ [] := by
    unfold fastDetectCameras
    exact fallbackIfEmpty_ne_nil _
  have hmem : ∃ c, c ∈ detectCameras o ∧ c.id = 0 := by
    unfold detectCameras
    exact ensureCameraZero_mem_zero _
  have hdet : detectCameras o ≠ [] := by
    obtain ⟨c, hc, _⟩ := hmem
    exact List.ne_nil_of_mem hc
  refine ⟨hfast, hdet, hmem, ?_⟩
  cases useFastScan <;> simpa [refreshAvailableCameras]

/-- C4: consecutive explicit read failures during streaming.  Three
consecutive no-frame reads (from a fresh counter) sleep 0.1 s after each of
the first two, then emit exactly one error event and break out of the read
loop regardless of any further pending reads; two failures followed by a
successful read emit no error and continue exactly as a loop restarted with
both counters at 0; and in a full `run` the loop exit falls through to the
outer retry logic, consuming one outer retry (the run below performs its
second connect attempt after the streaming failure, announcing "retrying
(1/2)"). -/
theorem frame_retry_bound (fps : Nat) (e : ℚ) (rest : List ReadStep) :
    captureLoop fps
        (ReadStep.noFrame :: ReadStep.noFrame :: ReadStep.noFrame :: rest) 0 0
      = ([Ev.sleepMs 100, Ev.sleepMs 100, Ev.error frameFailMsg],
         LoopExit.frameRetryBreak) ∧
    captureLoop fps
        (ReadStep.noFrame :: ReadStep.noFrame :: ReadStep.okFrame e :: rest) 0 0
      = (Ev.sleepMs 100 :: Ev.sleepMs 100 :: Ev.frame ::
          (fpsThrottle fps e ++ (captureLoop fps rest 0 0).1),
         (captureLoop fps rest 0 0).2) ∧
    errorCount (Ev.sleepMs 100 :: Ev.sleepMs 100 :: Ev.frame ::
      fpsThrottle fps e) = 0 ∧
    (runFn ⟨0, 2, 1, 30, initStages⟩
       ⟨fun k => if k = 0 then InitOutcome.ok else InitOutcome.openFail,
        fun _ => [ReadStep.noFrame, ReadStep.noFrame, ReadStep.noFrame]⟩).attempts
      = 2 ∧
    countEv (Ev.status (retryingMsg 1 2))
      (runFn ⟨0, 2, 1, 30, initStages⟩
        ⟨fun k => if k = 0 then InitOutcome.ok else InitOutcome.openFail,
         fun _ => [ReadStep.noFrame, ReadStep.noFrame, ReadStep.noFrame]⟩).events
      = 1 ∧
    countEv (Ev.error frameFailMsg)
      (runFn ⟨0, 2, 1, 30, initStages⟩
        ⟨fun k => if k = 0 then InitOutcome.ok else InitOutcome.openFail,
         fun _ => [ReadStep.noFrame, ReadStep.noFrame, ReadStep.noFrame]⟩).events
      = 1 := by
  have hth : errorCount (fpsThrottle fps e) = 0 := by
    unfold fpsThrottle
    split
    · split <;> rfl
    · rfl
  refine ⟨?_, ?_, ?_, by decide, by decide, by decide⟩
  · simp [captureLoop, MAX_FRAME_RETRIES]
  · simp [captureLoop, MAX_FRAME_RETRIES]
  · simp [errorCount_cons, hth, isErrorEv]

/-- C10: the exception budget of the streaming loop.  Six exceptions in a row
from a fresh error count produce five 0.1 s sleeps and then exactly one
"Persistent capture error" event, ending the loop; an exception with at most
5 errors accumulated since the last good frame is absorbed (one 0.1 s sleep,
loop continues with the error count incremented and the frame-retry counter
untouched — a budget separate from `MAX_FRAME_RETRIES = 3`); a successful
read resets both counters to 0. -/
theorem persistent_error_budget (fps fr ec : Nat) (m : String) (e : ℚ)
    (rest : List ReadStep) (hec : ec < 5) :
    captureLoop fps (List.replicate 6 (ReadStep.exc m)) fr 0
      = (List.replicate 5 (Ev.sleepMs 100) ++ [Ev.error (persistentMsg m)],
         LoopExit.persistentBreak) ∧
    captureLoop fps (ReadStep.exc m :: rest) fr ec
      = (Ev.sleepMs 100 :: (captureLoop fps rest fr (ec + 1)).1,
         (captureLoop fps rest fr (ec + 1)).2) ∧
    captureLoop fps (ReadStep.okFrame e :: rest) fr ec
      = (Ev.frame :: (fpsThrottle fps e ++ (captureLoop fps rest 0 0).1),
         (captureLoop fps rest 0 0).2) ∧
    MAX_FRAME_RETRIES = 3 := by
  refine ⟨?_, ?_, rfl, rfl⟩
  · simp [List.replicate, captureLoop]
  · have h5 : ¬ 5 < ec + 1 := by omega
    simp [captureLoop, h5]

/-- Witness for `persistent_error_budget` at a concrete input. -/
theorem persistent_error_budget_witness :
    (4 < 5) ∧
    (captureLoop 30 (List.replicate 6 (ReadStep.exc "boom")) 0 0
      = (List.replicate 5 (Ev.sleepMs 100) ++ [Ev.error (persistentMsg "boom")],
         LoopExit.persistentBreak) ∧
    captureLoop 30 (ReadStep.exc "boom" :: []) 0 4
      = (Ev.sleepMs 100 :: (captureLoop 30 [] 0 (4 + 1)).1,
         (captureLoop 30 [] 0 (4 + 1)).2) ∧
    captureLoop 30 (ReadStep.okFrame 0 :: []) 0 4
      = (Ev.frame :: (fpsThrottle 30 0 ++ (captureLoop 30 [] 0 0).1),
         (captureLoop 30 [] 0 0).2) ∧
    MAX_FRAME_RETRIES = 3) :=
  ⟨by decide, persistent_error_budget 30 0 4 "boom" 0 [] (by decide)⟩

/-- C7: FPS throttling.  When the configured fps is below the assumed
natural capture rate (the code's literal 30) and there is interval left, the
post-frame wait is a single condition-variable wait of
`max(0, 1/fps - elapsed)` (in whole milliseconds) — `fpsThrottle` emits a
`condWaitMs`, not the plain `sleepMs` used for retry delays; at fps ≥ 30 no
wait happens; `stop()` issues a `wakeAll`, and under the
`QWaitCondition.wait` semantics a wake arriving before the timeout ends the
wait at the wake, strictly earlier than the full remaining interval. -/
theorem throttle_wait_interruptible (fps : Nat) (elapsed : ℚ)
    (timeoutMs wakeAt : Nat) (t : ThreadState)
    (hfps : fps < 30) (hpos : 0 < frameSleepTime fps elapsed)
    (hwake : wakeAt < timeoutMs) :
    fpsThrottle fps elapsed
      = [Ev.condWaitMs ((frameSleepTime fps elapsed * 1000).floor.toNat)] ∧
    frameSleepTime fps elapsed = max 0 (1 / (fps : ℚ) - elapsed) ∧
    (∀ f2 e2, 30 ≤ f2 → fpsThrottle f2 e2 = []) ∧
    captureLoop fps [ReadStep.okFrame elapsed] 0 0
      = ([Ev.frame] ++ fpsThrottle fps elapsed, LoopExit.stopped) ∧
    waitMs timeoutMs (some wakeAt) = wakeAt ∧
    waitMs timeoutMs (some wakeAt) < timeoutMs ∧
    countEv Ev.wakeAll (stopThread t).2 = 1 := by
  have hmin : waitMs timeoutMs (some wakeAt) = wakeAt := by
    simp [waitMs, Nat.min_eq_left hwake.le]
  refine ⟨?_, rfl, ?_, ?_, hmin, ?_, ?_⟩
  · simp [fpsThrottle, hfps, hpos]
  · intro f2 e2 h
    unfold fpsThrottle
    rw [if_neg (by omega)]
  · simp [captureLoop]
  · rw [hmin]; exact hwake
  · cases h : t.cap <;>
      simp [stopThread, releaseCamera, h, countEv_cons, countEv_nil]

/-- Witness for `throttle_wait_interruptible` at a concrete input. -/
theorem throttle_wait_interruptible_witness :
    ((10 : Nat) < 30 ∧ 0 < frameSleepTime 10 0 ∧ (5 : Nat) < 100) ∧
    (fpsThrottle 10 0
      = [Ev.condWaitMs ((frameSleepTime 10 0 * 1000).floor.toNat)] ∧
    frameSleepTime 10 0 = max 0 (1 / ((10 : Nat) : ℚ) - 0) ∧
    (∀ f2 e2, 30 ≤ f2 → fpsThrottle f2 e2 = []) ∧
    captureLoop 10 [ReadStep.okFrame 0] 0 0
      = ([Ev.frame] ++ fpsThrottle 10 0, LoopExit.stopped) ∧
    waitMs 100 (some 5) = 5 ∧
    waitMs 100 (some 5) < 100 ∧
    countEv Ev.wakeAll (stopThread (newThread 0 0 30)).2 = 1) :=
  ⟨⟨by decide, by norm_num [frameSleepTime], by decide⟩,
   throttle_wait_interruptible 10 0 100 5 (newThread 0 0 30)
     (by decide) (by norm_num [frameSleepTime]) (by decide)⟩

/-- C2 counterexample: with the default retry budget of 2 and a connect
timeout on the very first attempt (no external stop requested), the worker
performs exactly ONE connect attempt and terminates — it does not proceed to
another full connect attempt, because `_connection_timeout` sets
`force_stop`, which the retry condition checks.  The timeout is still
counted as one outer retry (`retry_count = 1`), one "Camera error" event is
emitted, and no `connected(False)` is ever emitted (the terminal block at
the end of `run` only fires when `retry_count >= max_retries`). -/
theorem connect_timeout_kills_retries_counterexample :
    (runFn ⟨0, 2, 1, 30, initStages⟩
       ⟨fun _ => InitOutcome.connectTimeout, fun _ => []⟩).attempts = 1 ∧
    (runFn ⟨0, 2, 1, 30, initStages⟩
       ⟨fun _ => InitOutcome.connectTimeout, fun _ => []⟩).retryCount = 1 ∧
    (runFn ⟨0, 2, 1, 30, initStages⟩
       ⟨fun _ => InitOutcome.connectTimeout, fun _ => []⟩).forceStop = true ∧
    countEv (Ev.connected false)
      (runFn ⟨0, 2, 1, 30, initStages⟩
        ⟨fun _ => InitOutcome.connectTimeout, fun _ => []⟩).events = 0 ∧
    errorCount
      (runFn ⟨0, 2, 1, 30, initStages⟩
        ⟨fun _ => InitOutcome.connectTimeout, fun _ => []⟩).events = 1 := by
  exact ⟨rfl, rfl, rfl, by decide, by decide⟩

/-- C6 counterexample: a malformed start request (camera id resolves to
`None`) on a model with no active prior session emits the
`camera_error("No camera available")` event and returns `False`, but does
NOT emit any `camera_connected(False)` event — lines 693–695 of
`start_camera` return before any `camera_connected` emission. -/
theorem malformed_start_counterexample :
    (startCamera ⟨none, none, (640, 480), 30, 0⟩ none none none).ok = false ∧
    countEv (Ev.error noCameraMsg)
      (startCamera ⟨none, none, (640, 480), 30, 0⟩ none none none).events = 1 ∧
    countEv (Ev.connected false)
      (startCamera ⟨none, none, (640, 480), 30, 0⟩ none none none).events = 0 := by
  exact ⟨rfl, by decide, by decide⟩

/-- Fact: `stop_camera` touches only the thread field of the model. -/
lemma stopCamera_currentCameraId (m : ModelState) :
    (stopCamera m).1.currentCameraId = m.currentCameraId := by
  unfold stopCamera
  cases m.cameraThread with
  | none => rfl
  | some t => by_cases h : t.alive <;> simp [h]

/-- C6 (amended): a start request whose camera identifier resolves to `None`
emits exactly one `camera_error("No camera available")`, returns `False`,
and never enters the connect sequence — no `CameraThread` is constructed or
started, and the model state is exactly what `stop_camera` left.  No
`camera_connected(False)` is emitted by the malformed-request handling
itself: when there was no active prior session the trace contains no
`connected(False)` at all. -/
theorem malformed_start_amended (m : ModelState) (res : Option (Nat × Nat))
    (fps : Option Nat) (hcid : m.currentCameraId = none) :
    (startCamera m none res fps).ok = false ∧
    countEv (Ev.error noCameraMsg) (startCamera m none res fps).events = 1 ∧
    (startCamera m none res fps).events.filter isThreadCreate = [] ∧
    (startCamera m none res fps).events.filter isThreadStart = [] ∧
    (startCamera m none res fps).state = (stopCamera m).1 ∧
    (m.cameraThread = none →
      countEv (Ev.connected false) (startCamera m none res fps).events = 0) := by
  rcases m with ⟨th, cid0, res0, fps0, nsid⟩
  simp only at hcid
  subst hcid
  rcases th with _ | t
  · refine ⟨rfl, rfl, rfl, rfl, rfl, fun _ => rfl⟩
  · rcases ht : t.alive with _ | _ <;> rcases hc : t.cap with _ | c <;>
      simp [startCamera, stopCamera, stopThread, releaseCamera, ht, hc,
        countEv_cons, countEv_nil, countEv_append, isThreadCreate,
        isThreadStart, noCameraMsg]

/-- Witness for `malformed_start_amended` at a concrete input. -/
theorem malformed_start_amended_witness :
    ((⟨none, none, (640, 480), 30, 0⟩ : ModelState).currentCameraId = none) ∧
    ((startCamera ⟨none, none, (640, 480), 30, 0⟩ none none none).ok = false ∧
    countEv (Ev.error noCameraMsg)
      (startCamera ⟨none, none, (640, 480), 30, 0⟩ none none none).events = 1 ∧
    (startCamera ⟨none, none, (640, 480), 30, 0⟩ none none
        none).events.filter isThreadCreate = [] ∧
    (startCamera ⟨none, none, (640, 480), 30, 0⟩ none none
        none).events.filter isThreadStart = [] ∧
    (startCamera ⟨none, none, (640, 480), 30, 0⟩ none none none).state
      = (stopCamera ⟨none, none, (640, 480), 30, 0⟩).1 ∧
    ((⟨none, none, (640, 480), 30, 0⟩ : ModelState).cameraThread = none →
      countEv (Ev.connected false)
        (startCamera ⟨none, none, (640, 480), 30, 0⟩ none none none).events
        = 0)) :=
  ⟨rfl, malformed_start_amended ⟨none, none, (640, 480), 30, 0⟩ none none rfl⟩

/-- C8: at most one capture session per worker.  Starting a capture while a
prior thread is alive first emits the full stop sequence of the prior thread
(wake, release of its handle if present, `connected(False)`) and only then
the connect/thread-creation events of the new thread; the new thread is a
fresh object (its bookkeeping identity is the current counter value, distinct
from the prior thread's) with a null capture handle — sessions are never
pooled or reused across requests. -/
theorem single_session_per_worker (m : ModelState) (c : Nat)
    (t0 : ThreadState) (hprev : m.cameraThread = some t0)
    (halive : t0.alive = true) (hsid : t0.sid < m.nextSessionId) :
    (startCamera m (some c) none none).ok = true ∧
    (∃ tNew, (startCamera m (some c) none none).state.cameraThread = some tNew ∧
       tNew.sid = m.nextSessionId ∧ tNew.cap = none ∧ tNew.sid ≠ t0.sid) ∧
    (startCamera m (some c) none none).events
      = (Ev.status "Disconnecting from camera..." :: (stopThread t0).2 ++
          [Ev.status "Camera disconnected", Ev.connected false]) ++
        [Ev.status (connectingMsg c), Ev.progress 0,
         Ev.threadCreate m.nextSessionId, Ev.threadStart m.nextSessionId] ∧
    (startCamera m (some c) none none).state.nextSessionId
      = m.nextSessionId + 1 ∧
    countEv Ev.wakeAll (stopThread t0).2 = 1 ∧
    (t0.cap ≠ none → countEv Ev.release (stopThread t0).2 = 1) := by
  rcases m with ⟨th, cid0, res0, fps0, nsid⟩
  simp only at hprev hsid
  subst hprev
  refine ⟨by simp [startCamera, stopCamera, halive],
          ⟨{ newThread nsid c fps0 with alive := true },
            by simp [startCamera, stopCamera, halive],
            by simp [newThread],
            by simp [newThread],
            by show nsid ≠ t0.sid; omega⟩,
          by simp [startCamera, stopCamera, halive],
          by simp [startCamera, stopCamera, halive],
          ?_, ?_⟩
  · cases h : t0.cap <;>
      simp [stopThread, releaseCamera, h, countEv_cons, countEv_nil]
  · intro hne
    cases h : t0.cap with
    | none => exact absurd h hne
    | some v => simp [stopThread, releaseCamera, h, countEv_cons, countEv_nil]

/-- Witness for `single_session_per_worker` at a concrete input. -/
theorem single_session_per_worker_witness :
    ((⟨some ⟨0, 0, 30, true, false, true, some 7⟩, some 0, (640, 480), 30, 1⟩ :
        ModelState).cameraThread = some ⟨0, 0, 30, true, false, true, some 7⟩ ∧
      (⟨0, 0, 30, true, false, true, some 7⟩ : ThreadState).alive = true ∧
      (⟨0, 0, 30, true, false, true, some 7⟩ : ThreadState).sid < 1) ∧
    ((startCamera ⟨some ⟨0, 0, 30, true, false, true, some 7⟩, some 0,
        (640, 480), 30, 1⟩ (some 0) none none).ok = true ∧
    (∃ tNew, (startCamera ⟨some ⟨0, 0, 30, true, false, true, some 7⟩, some 0,
          (640, 480), 30, 1⟩ (some 0) none none).state.cameraThread = some tNew ∧
       tNew.sid = (⟨some ⟨0, 0, 30, true, false, true, some 7⟩, some 0,
          (640, 480), 30, 1⟩ : ModelState).nextSessionId ∧
       tNew.cap = none ∧
       tNew.sid ≠ (⟨0, 0, 30, true, false, true, some 7⟩ : ThreadState).sid) ∧
    (startCamera ⟨some ⟨0, 0, 30, true, false, true, some 7⟩, some 0,
        (640, 480), 30, 1⟩ (some 0) none none).events
      = (Ev.status "Disconnecting from camera..." ::
          (stopThread ⟨0, 0, 30, true, false, true, some 7⟩).2 ++
          [Ev.status "Camera disconnected", Ev.connected false]) ++
        [Ev.status (connectingMsg 0), Ev.progress 0,
         Ev.threadCreate (⟨some ⟨0, 0, 30, true, false, true, some 7⟩, some 0,
            (640, 480), 30, 1⟩ : ModelState).nextSessionId,
         Ev.threadStart (⟨some ⟨0, 0, 30, true, false, true, some 7⟩, some 0,
            (640, 480), 30, 1⟩ : ModelState).nextSessionId] ∧
    (startCamera ⟨some ⟨0, 0, 30, true, false, true, some 7⟩, some 0,
        (640, 480), 30, 1⟩ (some 0) none none).state.nextSessionId
      = (⟨some ⟨0, 0, 30, true, false, true, some 7⟩, some 0,
          (640, 480), 30, 1⟩ : ModelState).nextSessionId + 1 ∧
    countEv Ev.wakeAll (stopThread ⟨0, 0, 30, true, false, true, some 7⟩).2 = 1 ∧
    ((⟨0, 0, 30, true, false, true, some 7⟩ : ThreadState).cap ≠ none →
      countEv Ev.release
        (stopThread ⟨0, 0, 30, true, false, true, some 7⟩).2 = 1)) :=
  ⟨⟨rfl, rfl, by decide⟩,
   single_session_per_worker
     ⟨some ⟨0, 0, 30, true, false, true, some 7⟩, some 0, (640, 480), 30, 1⟩
     0 ⟨0, 0, 30, true, false, true, some 7⟩ rfl rfl (by decide)⟩

/-! Unfolding lemmas for the `run` retry loop -/

/-- One iteration of the retry loop on a failing attempt: either announce the
retry and recurse, or (budget exhausted, or the connect timeout set
`force_stop`) emit the per-attempt error and fall through to the post-loop
check. -/
lemma runLoop_step_fail (cfg : RunConfig) (env : RunEnv) (f rc k : Nat)
    (acc : List Ev) (hs : (env.attemptOutcome k).succeeds = false) :
    runLoop cfg env (f + 1) rc k acc =
      if rc + 1 < cfg.maxRetries ∧ (env.attemptOutcome k).timesOut = false then
        runLoop cfg env f (rc + 1) (k + 1)
          (acc ++ Ev.status (initializingMsg cfg.cameraId) ::
            (initCameraEvents cfg.cameraId cfg.stages (env.attemptOutcome k) ++
             [Ev.status (retryingMsg (rc + 1) cfg.maxRetries), Ev.progress 0,
              Ev.sleepMs (cfg.retryDelay * 1000), Ev.release]))
      else
        finishRun cfg
          (acc ++ Ev.status (initializingMsg cfg.cameraId) ::
            (initCameraEvents cfg.cameraId cfg.stages (env.attemptOutcome k) ++
             [Ev.error initFailedMsg, Ev.release]))
          (k + 1) (rc + 1) (env.attemptOutcome k).timesOut := by
  simp only [runLoop, initCamera, hs, Bool.false_eq_true, if_false,
    List.append_assoc, List.cons_append]

/-- Below the budget, `finishRun` adds nothing. -/
lemma finishRun_below (cfg : RunConfig) (evs : List Ev) (attempts rc : Nat)
    (fs : Bool) (h : ¬ cfg.maxRetries ≤ rc) :
    finishRun cfg evs attempts rc fs
      = ⟨evs, attempts, rc, fs⟩ := by
  simp [finishRun, h]

/-- At or past the budget, `finishRun` appends the terminal
`connected(False)` / exhausted-error pair. -/
lemma finishRun_exhausted (cfg : RunConfig) (evs : List Ev) (attempts rc : Nat)
    (fs : Bool) (h : cfg.maxRetries ≤ rc) :
    finishRun cfg evs attempts rc fs
      = ⟨evs ++ [Ev.connected false, Ev.error (exhaustedMsg cfg.maxRetries)],
         attempts, rc, fs⟩ := by
  simp [finishRun, h]

/-- Trace shape of `run`'s retry loop when every connect attempt fails
without a connect timeout (open reports not-opened, or the first-frame read
fails and the resulting `IOError` makes `_initialize_camera` return
`False`).  With `fuel + rc = N` and at least one iteration left, the loop
performs exactly `fuel` more attempts, each contributing one "Initializing"
status and one in-attempt progress reset (plus one more reset per retry
announcement), one release per attempt, exactly one `connected(False)`, no
`connected(True)`, exactly two error events in total (the final attempt's
per-attempt "Camera error" and the terminal exhausted message), and the
trace ends with the terminal `connected(False)` / exhausted-error pair. -/
lemma runLoop_allFail (N : Nat) (outs : Nat → InitOutcome)
    (hfail : ∀ i, outs i = InitOutcome.openFail ∨
      outs i = InitOutcome.firstFrameFail) :
    ∀ fuel rc k acc, rc + fuel = N → 1 ≤ fuel →
      ∃ tail,
        runLoop ⟨0, N, 1, 30, initStages⟩ ⟨outs, fun _ => []⟩ fuel rc k acc
          = ⟨acc ++ tail, k + fuel, N, false⟩ ∧
        countEv (Ev.status (initializingMsg 0)) tail = fuel ∧
        countEv (Ev.progress 0) tail = 2 * fuel - 1 ∧
        countEv (Ev.connected false) tail = 1 ∧
        countEv (Ev.connected true) tail = 0 ∧
        errorCount tail = 2 ∧
        countEv Ev.release tail = fuel ∧
        ∃ pre, tail = pre ++ [Ev.connected false, Ev.error (exhaustedMsg N)] ∧
          countEv (Ev.connected false) pre = 0 := by
  intro fuel
  induction fuel with
  | zero => intro rc k acc h1 h2; omega
  | succ f ih =>
    intro rc k acc hsum _
    have hko := hfail k
    have hs : (outs k).succeeds = false := by
      rcases hko with h | h <;> rw [h] <;> rfl
    have ht : (outs k).timesOut = false := by
      rcases hko with h | h <;> rw [h] <;> rfl
    obtain ⟨q1, q2, q3, q4, q5, q6⟩ := counts_initEvents_fail (outs k) hko
    have hstep := runLoop_step_fail ⟨0, N, 1, 30, initStages⟩
      ⟨outs, fun _ => []⟩ f rc k acc hs
    simp only at hstep
    rcases Nat.eq_zero_or_pos f with hf | hf
    · -- last attempt: budget exhausted afterwards
      subst hf
      have hN : rc + 1 = N := by omega
      rw [if_neg (by simp [ht]; omega)] at hstep
      rw [finishRun_exhausted _ _ _ _ _ (by simp; omega)] at hstep
      rw [hstep]
      refine ⟨Ev.status (initializingMsg 0) ::
        (initCameraEvents 0 initStages (outs k) ++
          [Ev.error initFailedMsg, Ev.release, Ev.connected false,
           Ev.error (exhaustedMsg N)]), ?_, ?_, ?_, ?_, ?_, ?_, ?_, ?_⟩
      · simp [hN, ht]
      · simp [countEv_cons, countEv_append, countEv_nil, q1]
      · simp [countEv_cons, countEv_append, countEv_nil, q2]
      · simp [countEv_cons, countEv_append, countEv_nil, q3]
      · simp [countEv_cons, countEv_append, countEv_nil, q4]
      · simp [errorCount_cons, errorCount_append, errorCount_nil, q5, isErrorEv]
      · simp [countEv_cons, countEv_append, countEv_nil, q6]
      · refine ⟨Ev.status (initializingMsg 0) ::
          (initCameraEvents 0 initStages (outs k) ++
            [Ev.error initFailedMsg, Ev.release]), by simp, ?_⟩
        simp [countEv_cons, countEv_append, countEv_nil, q3]
    · -- announce retry and recurse
      rw [if_pos ⟨by omega, ht⟩] at hstep
      obtain ⟨tail', heq', c1, c2, c3, c4, c5, c6, pre', hpre', hprec⟩ :=
        ih (rc + 1) (k + 1)
          (acc ++ Ev.status (initializingMsg 0) ::
            (initCameraEvents 0 initStages (outs k) ++
             [Ev.status (retryingMsg (rc + 1) N), Ev.progress 0,
              Ev.sleepMs (1 * 1000), Ev.release]))
          (by omega) (by omega)
      rw [hstep, heq']
      refine ⟨Ev.status (initializingMsg 0) ::
        (initCameraEvents 0 initStages (outs k) ++
          ([Ev.status (retryingMsg (rc + 1) N), Ev.progress 0,
            Ev.sleepMs (1 * 1000), Ev.release] ++ tail')), ?_, ?_, ?_, ?_, ?_,
        ?_, ?_, ?_⟩
      · simp only [List.append_assoc, List.cons_append, List.nil_append]
        refine congrArg (fun x => RunResult.mk _ x _ _) ?_
        omega
      · simp [countEv_cons, countEv_append, countEv_nil, q1, c1,
          retryingMsg_ne_initializingMsg]
        omega
      · simp [countEv_cons, countEv_append, countEv_nil, q2, c2]
        omega
      · simp [countEv_cons, countEv_append, countEv_nil, q3, c3]
      · simp [countEv_cons, countEv_append, countEv_nil, q4, c4]
      · simp [errorCount_cons, errorCount_append, errorCount_nil, q5, c5,
          isErrorEv]
      · simp [countEv_cons, countEv_append, countEv_nil, q6, c6]
        omega
      · refine ⟨Ev.status (initializingMsg 0) ::
          (initCameraEvents 0 initStages (outs k) ++
            ([Ev.status (retryingMsg (rc + 1) N), Ev.progress 0,
              Ev.sleepMs (1 * 1000), Ev.release] ++ pre')), ?_, ?_⟩
        · rw [hpre']
          simp [List.append_assoc]
        · simp [countEv_cons, countEv_append, countEv_nil, q3, hprec]

/-- C1: bounded retries.  For every configured `max_retries = N`, if every
connect attempt fails (open reports not-opened or initialization raises —
without the connect-timeout timer firing), `run` performs exactly `N`
connect attempts, each with its matching "Initializing" status and progress
reset (`2N - 1` progress-0 emissions in total: one at the start of every
attempt plus one per retry announcement), emits exactly one terminal
`connected(False)` — and never a `connected(True)` — and ends the trace with
the single terminal exhausted-error event (the only other error event is the
final attempt's per-attempt "Camera error").  The function returns, so no
further connection is ever attempted without an external restart. -/
theorem bounded_retries_terminal (N : Nat) (outs : Nat → InitOutcome)
    (hfail : ∀ i, outs i = InitOutcome.openFail ∨
      outs i = InitOutcome.firstFrameFail) :
    (runFn ⟨0, N, 1, 30, initStages⟩ ⟨outs, fun _ => []⟩).attempts = N ∧
    countEv (Ev.status (initializingMsg 0))
      (runFn ⟨0, N, 1, 30, initStages⟩ ⟨outs, fun _ => []⟩).events = N ∧
    countEv (Ev.progress 0)
      (runFn ⟨0, N, 1, 30, initStages⟩ ⟨outs, fun _ => []⟩).events
      = 2 * N - 1 ∧
    countEv (Ev.connected false)
      (runFn ⟨0, N, 1, 30, initStages⟩ ⟨outs, fun _ => []⟩).events = 1 ∧
    countEv (Ev.connected true)
      (runFn ⟨0, N, 1, 30, initStages⟩ ⟨outs, fun _ => []⟩).events = 0 ∧
    errorCount (runFn ⟨0, N, 1, 30, initStages⟩ ⟨outs, fun _ => []⟩).events
      = (if N = 0 then 1 else 2) ∧
    ∃ pre, (runFn ⟨0, N, 1, 30, initStages⟩ ⟨outs, fun _ => []⟩).events
        = pre ++ [Ev.connected false, Ev.error (exhaustedMsg N)] ∧
      countEv (Ev.connected false) pre = 0 := by
  rcases Nat.eq_zero_or_pos N with h0 | hpos
  · subst h0
    exact ⟨rfl, rfl, rfl, rfl, rfl, rfl, [], rfl, rfl⟩
  · obtain ⟨tail, heq, c1, c2, c3, c4, c5, c6, pre, hpre, hprec⟩ :=
      runLoop_allFail N outs hfail N 0 0 [] (by omega) (by omega)
    have hrun : runFn ⟨0, N, 1, 30, initStages⟩ ⟨outs, fun _ => []⟩
        = ⟨tail, N, N, false⟩ := by
      show runLoop ⟨0, N, 1, 30, initStages⟩ ⟨outs, fun _ => []⟩ N 0 0 [] = _
      rw [heq]
      simp
    rw [hrun]
    refine ⟨rfl, c1, c2, c3, c4, ?_, pre, hpre, hprec⟩
    rw [if_neg (by omega)]
    exact c5

/-- Witness for `bounded_retries_terminal` at `N = 2` with every attempt an
open failure. -/
theorem bounded_retries_terminal_witness :
    (∀ i : Nat, (fun _ : Nat => InitOutcome.openFail) i = InitOutcome.openFail ∨
      (fun _ : Nat => InitOutcome.openFail) i = InitOutcome.firstFrameFail) ∧
    ((runFn ⟨0, 2, 1, 30, initStages⟩
        ⟨fun _ => InitOutcome.openFail, fun _ => []⟩).attempts = 2 ∧
    countEv (Ev.status (initializingMsg 0))
      (runFn ⟨0, 2, 1, 30, initStages⟩
        ⟨fun _ => InitOutcome.openFail, fun _ => []⟩).events = 2 ∧
    countEv (Ev.progress 0)
      (runFn ⟨0, 2, 1, 30, initStages⟩
        ⟨fun _ => InitOutcome.openFail, fun _ => []⟩).events = 2 * 2 - 1 ∧
    countEv (Ev.connected false)
      (runFn ⟨0, 2, 1, 30, initStages⟩
        ⟨fun _ => InitOutcome.openFail, fun _ => []⟩).events = 1 ∧
    countEv (Ev.connected true)
      (runFn ⟨0, 2, 1, 30, initStages⟩
        ⟨fun _ => InitOutcome.openFail, fun _ => []⟩).events = 0 ∧
    errorCount (runFn ⟨0, 2, 1, 30, initStages⟩
        ⟨fun _ => InitOutcome.openFail, fun _ => []⟩).events
      = (if 2 = 0 then 1 else 2) ∧
    ∃ pre, (runFn ⟨0, 2, 1, 30, initStages⟩
          ⟨fun _ => InitOutcome.openFail, fun _ => []⟩).events
        = pre ++ [Ev.connected false, Ev.error (exhaustedMsg 2)] ∧
      countEv (Ev.connected false) pre = 0) :=
  ⟨fun _ => Or.inl rfl,
   bounded_retries_terminal 2 (fun _ => InitOutcome.openFail)
     (fun _ => Or.inl rfl)⟩

/-- C2 (amended): a connect timeout aborts the current attempt and is
counted as one outer retry (`retry_count = 1`), but because
`_connection_timeout` sets `force_stop`, the worker then terminates without
any further connect attempt even when the retry budget (any `N ≥ 2`) is not
exhausted and no stop was requested: exactly one attempt happens, one
"Camera error" event is emitted, and no `connected(False)` is ever
emitted. -/
theorem connect_timeout_terminates_amended (N : Nat) (outs : Nat → InitOutcome)
    (hN : 2 ≤ N) (h0 : outs 0 = InitOutcome.connectTimeout) :
    (runFn ⟨0, N, 1, 30, initStages⟩ ⟨outs, fun _ => []⟩).attempts = 1 ∧
    (runFn ⟨0, N, 1, 30, initStages⟩ ⟨outs, fun _ => []⟩).retryCount = 1 ∧
    (runFn ⟨0, N, 1, 30, initStages⟩ ⟨outs, fun _ => []⟩).forceStop = true ∧
    countEv (Ev.connected false)
      (runFn ⟨0, N, 1, 30, initStages⟩ ⟨outs, fun _ => []⟩).events = 0 ∧
    errorCount (runFn ⟨0, N, 1, 30, initStages⟩ ⟨outs, fun _ => []⟩).events
      = 1 ∧
    (runFn ⟨0, N, 1, 30, initStages⟩ ⟨outs, fun _ => []⟩).events
      = Ev.status (initializingMsg 0) ::
        (initCameraEvents 0 initStages InitOutcome.connectTimeout ++
         [Ev.error initFailedMsg, Ev.release]) := by
  obtain ⟨n, rfl⟩ : ∃ n, N = n + 2 := ⟨N - 2, by omega⟩
  have hs : (outs 0).succeeds = false := by rw [h0]; rfl
  have hstep := runLoop_step_fail ⟨0, n + 2, 1, 30, initStages⟩
    ⟨outs, fun _ => []⟩ (n + 1) 0 0 [] hs
  simp only at hstep
  rw [if_neg (by rw [h0]; simp [InitOutcome.timesOut])] at hstep
  have hrun : runFn ⟨0, n + 2, 1, 30, initStages⟩ ⟨outs, fun _ => []⟩
      = ⟨Ev.status (initializingMsg 0) ::
          (initCameraEvents 0 initStages InitOutcome.connectTimeout ++
           [Ev.error initFailedMsg, Ev.release]), 1, 1, true⟩ := by
    show runLoop ⟨0, n + 2, 1, 30, initStages⟩ ⟨outs, fun _ => []⟩
      (n + 1 + 1) 0 0 [] = _
    rw [hstep, finishRun_below _ _ _ _ _ (by simp)]
    rw [h0]
    simp [InitOutcome.timesOut]
  rw [hrun]
  exact ⟨rfl, rfl, rfl, by decide, by decide, rfl⟩

/-- Witness for `connect_timeout_terminates_amended` at `N = 2`. -/
theorem connect_timeout_terminates_amended_witness :
    ((2 : Nat) ≤ 2 ∧
      (fun _ : Nat => InitOutcome.connectTimeout) 0
        = InitOutcome.connectTimeout) ∧
    ((runFn ⟨0, 2, 1, 30, initStages⟩
        ⟨fun _ => InitOutcome.connectTimeout, fun _ => []⟩).attempts = 1 ∧
    (runFn ⟨0, 2, 1, 30, initStages⟩
        ⟨fun _ => InitOutcome.connectTimeout, fun _ => []⟩).retryCount = 1 ∧
    (runFn ⟨0, 2, 1, 30, initStages⟩
        ⟨fun _ => InitOutcome.connectTimeout, fun _ => []⟩).forceStop = true ∧
    countEv (Ev.connected false)
      (runFn ⟨0, 2, 1, 30, initStages⟩
        ⟨fun _ => InitOutcome.connectTimeout, fun _ => []⟩).events = 0 ∧
    errorCount (runFn ⟨0, 2, 1, 30, initStages⟩
        ⟨fun _ => InitOutcome.connectTimeout, fun _ => []⟩).events = 1 ∧
    (runFn ⟨0, 2, 1, 30, initStages⟩
        ⟨fun _ => InitOutcome.connectTimeout, fun _ => []⟩).events
      = Ev.status (initializingMsg 0) ::
        (initCameraEvents 0 initStages InitOutcome.connectTimeout ++
         [Ev.error initFailedMsg, Ev.release])) :=
  ⟨⟨by decide, rfl⟩,
   connect_timeout_terminates_amended 2 (fun _ => InitOutcome.connectTimeout)
     (by decide) rfl⟩
